import Mathlib

/-!
Shallow embedding of the rfgrep search pipeline (github.com/kh3rld/rfgrep).

Modelling conventions:
* Rust byte strings and `&str` values are modelled as `List Char`.  All inputs
  used in concrete evaluations are ASCII, where Rust's byte offsets coincide
  with character offsets, and the lexicographic order on `List Char`
  (by code point) coincides with Rust's byte-wise ordering of UTF-8 strings.
* Machine integers (`usize`, `u64`) are modelled as `Nat`; none of the verified
  code paths can overflow 64 bits on the inputs considered.
* Rust `while` loops are modelled as fuel-indexed structural recursion.  Every
  loop modelled here consumes at least one unit of its measure per iteration,
  and is always invoked with fuel strictly larger than the measure, so the
  fuel never runs out; `*_fuel_irrel` lemmas record this.
* Filesystem reads are modelled by passing the relevant file content
  explicitly as data.
-/

/-- Rust string/byte-slice contents, as a list of characters. -/
abbrev Str := List Char

/-! ## Literal matching primitives

`memmemFind` models `memchr::memmem::find(haystack, needle)` (and equally
`str::find` for literal needles): the smallest index at which `needle`
occurs in `haystack`, if any.  An empty needle is found at index 0. -/

/-- Leftmost occurrence of `pat` in `hay` (`memchr::memmem::find`). -/
def memmemFind (hay pat : Str) : Option Nat :=
  if pat.isPrefixOf hay then some 0
  else
    match hay with
    | [] => none
    | _ :: t => (memmemFind t pat).map (· + 1)

/-- `Regex::find` for a regex built by `regex::escape` from a literal pattern
(cf. `build_regex` in `src/main.rs`, `SearchMode::Text`): the leftmost match,
returned as half-open character offsets `(start, end)`.  The empty pattern
escapes to the empty regex, which matches at offset 0 with length 0. -/
def literal_find (pat line : Str) : Option (Nat × Nat) :=
  (memmemFind line pat).map fun i => (i, i + pat.length)

/-! ## `SimdSearch::search` (src/search/algorithms.rs, lines 33-53)

The Rust loop repeatedly calls `memmem::find` on `&text[pos..]`, records the
absolute position, sets `pos = absolute_pos + 1`, and breaks when
`pos >= text.len()`.  The fuel decreases by one per iteration while `pos`
strictly increases, so `text.length + 1` fuel always suffices. -/

/-- Loop body of `SimdSearch::search`, fuel-indexed. -/
def simdSearchAux (pat text : Str) (pos : Nat) : Nat → List Nat
  | 0 => []
  | fuel + 1 =>
    match memmemFind (text.drop pos) pat with
    | none => []
    | some found =>
      let absolute := pos + found
      absolute ::
        (if text.length ≤ absolute + 1 then []
         else simdSearchAux pat text (absolute + 1) fuel)

/-- `SimdSearch::search`: returns `[]` for the empty pattern, otherwise runs
the scan loop from position 0. -/
def simdSearch (pat text : Str) : List Nat :=
  if pat = [] then [] else simdSearchAux pat text 0 (text.length + 1)

/-- The fuel given to `simdSearchAux` is irrelevant as long as it exceeds
`text.length - pos`, which `simdSearch` guarantees: the embedding computes
the same list as the unbounded Rust loop. -/
theorem simdSearchAux_fuel_irrel (pat text : Str) :
    ∀ f₁ f₂ pos, text.length - pos < f₁ → text.length - pos < f₂ →
      simdSearchAux pat text pos f₁ = simdSearchAux pat text pos f₂ := by
  intro f₁
  induction f₁ with
  | zero => omega
  | succ f₁ ih =>
    intro f₂ pos h₁ h₂
    match f₂, h₂ with
    | f₂ + 1, h₂ =>
      simp only [simdSearchAux]
      cases hfind : memmemFind (text.drop pos) pat with
      | none => rfl
      | some found =>
        simp only []
        by_cases hstop : text.length ≤ pos + found + 1
        · rw [if_pos hstop, if_pos hstop]
        · rw [if_neg hstop, if_neg hstop]
          have := ih f₂ (pos + found + 1) (by omega) (by omega)
          rw [this]

/-- Every occurrence reported by `memmemFind` really is one. -/
theorem memmemFind_occurrence (pat : Str) :
    ∀ hay i, memmemFind hay pat = some i → pat.isPrefixOf (hay.drop i) = true := by
  intro hay
  induction hay with
  | nil =>
    intro i h
    unfold memmemFind at h
    split at h
    next hpre => cases h; exact hpre
    next => cases h
  | cons c t ih =>
    intro i h
    unfold memmemFind at h
    split at h
    next hpre => cases h; exact hpre
    next =>
      simp only [Option.map_eq_some'] at h
      obtain ⟨j, hj, rfl⟩ := h
      simpa using ih j hj

/-- All positions returned by the scan loop lie at or after the start
position. -/
theorem simdSearchAux_ge (pat text : Str) :
    ∀ fuel pos x, x ∈ simdSearchAux pat text pos fuel → pos ≤ x := by
  intro fuel
  induction fuel with
  | zero => intro pos x hx; simp [simdSearchAux] at hx
  | succ fuel ih =>
    intro pos x hx
    unfold simdSearchAux at hx
    cases hfind : memmemFind (text.drop pos) pat with
    | none => rw [hfind] at hx; simp at hx
    | some found =>
      rw [hfind] at hx
      simp only [List.mem_cons] at hx
      rcases hx with rfl | hx
      · omega
      · split at hx
        · simp at hx
        · have := ih (pos + found + 1) x hx
          omega

/-- The scan loop returns strictly increasing positions. -/
theorem simdSearchAux_chain (pat text : Str) :
    ∀ fuel pos, (simdSearchAux pat text pos fuel).Chain' (· < ·) := by
  intro fuel
  induction fuel with
  | zero => intro pos; simp [simdSearchAux]
  | succ fuel ih =>
    intro pos
    unfold simdSearchAux
    cases hfind : memmemFind (text.drop pos) pat with
    | none => simp
    | some found =>
      simp only []
      rw [List.chain'_cons']
      constructor
      · intro y hy
        split at hy
        · simp at hy
        · have hmem : y ∈ simdSearchAux pat text (pos + found + 1) fuel :=
            List.mem_of_mem_head? hy
          have := simdSearchAux_ge pat text fuel (pos + found + 1) y hmem
          omega
      · split
        · simp
        · exact ih (pos + found + 1)

/-- Positions reported by the scan loop are genuine pattern occurrences. -/
theorem simdSearchAux_occurrence (pat text : Str) :
    ∀ fuel pos x, x ∈ simdSearchAux pat text pos fuel →
      pat.isPrefixOf (text.drop x) = true := by
  intro fuel
  induction fuel with
  | zero => intro pos x hx; simp [simdSearchAux] at hx
  | succ fuel ih =>
    intro pos x hx
    unfold simdSearchAux at hx
    cases hfind : memmemFind (text.drop pos) pat with
    | none => rw [hfind] at hx; simp at hx
    | some found =>
      rw [hfind] at hx
      simp only [List.mem_cons] at hx
      rcases hx with rfl | hx
      · have h2 := memmemFind_occurrence pat (text.drop pos) found hfind
        rw [List.drop_drop] at h2
        exact h2
      · split at hx
        · simp at hx
        · exact ih (pos + found + 1) x hx

/-- Claim C1 (corrected): `SimdSearch::search` returns match offsets in
strictly increasing byte order and every reported offset is a genuine
occurrence of the pattern; however, after a match starting at `s` the next
search position is `s + 1` (not `max(e, s+1)`), so overlapping matches ARE
emitted — see the counterexample. -/
theorem simd_search_order (pat text : Str) :
    (simdSearch pat text).Chain' (· < ·) ∧
      ∀ x ∈ simdSearch pat text, pat.isPrefixOf (text.drop x) = true := by
  unfold simdSearch
  split
  · simp
  · exact ⟨simdSearchAux_chain pat text _ 0,
      fun x hx => simdSearchAux_occurrence pat text _ 0 x hx⟩

/-- Claim C1 counterexample: searching for `aa` in `aaaa` yields offsets
`[0, 1, 2]` — overlapping matches — not the claimed `[0, 2]`. -/
theorem simd_overlap_counterexample :
    simdSearch "aa".toList "aaaa".toList = [0, 1, 2] ∧
      simdSearch "aa".toList "aaaa".toList ≠ [0, 2] := by
  constructor
  · decide
  · decide

/-! ## Match records and the streaming scanner

`SearchMatch` mirrors `src/processor.rs` lines 49-59; the Rust struct derives
`PartialOrd`/`Ord`, which compare fields lexicographically in declaration
order.  `find_matches_streaming` mirrors `src/processor.rs` lines 314-352:
the `BufReader` line iterator is modelled as the list of the file's lines.
`CONTEXT_LINES` is the fixed constant 2 from `src/processor.rs` line 17 (the
CLI `--context-lines` value is destructured away in `src/main.rs` and never
reaches the processor). -/

/-- `SearchMatch` (`src/processor.rs`), field for field and in declaration
order. -/
structure SearchMatch where
  path : Str
  line_number : Nat
  line : Str
  context_before : List (Nat × Str)
  context_after : List (Nat × Str)
  matched_text : Str
  column_start : Nat
  column_end : Nat
deriving DecidableEq, Repr

/-- `CONTEXT_LINES` constant (`src/processor.rs` line 17). -/
def CONTEXT_LINES : Nat := 2

/-- Loop body of `find_matches_streaming`, fuel-indexed.  State: `find` is
`pattern.find` on a line, `line_no` the running 1-based line counter (note the
Rust code keeps incrementing it while pulling `context_after` lines and then
stores it as `line_number`), `buffer` the context ring `VecDeque`. -/
def streamGo (find : Str → Option (Nat × Nat)) (path : Str) (line_no : Nat)
    (buffer : List (Nat × Str)) : List Str → Nat → List SearchMatch
  | _, 0 => []
  | [], _ + 1 => []
  | l :: rest, fuel + 1 =>
    let n := line_no + 1
    let buf1 := buffer ++ [(n, l)]
    let buf := if 2 * CONTEXT_LINES + 1 < buf1.length then buf1.tail else buf1
    match find l with
    | none => streamGo find path n buf rest fuel
    | some (s, e) =>
      let context_before := buf.take CONTEXT_LINES
      let taken := rest.take CONTEXT_LINES
      let context_after := taken.enum.map fun p => (n + 1 + p.1, p.2)
      let n2 := n + taken.length
      { path := path, line_number := n2, line := l,
        context_before := context_before, context_after := context_after,
        matched_text := (l.drop s).take (e - s),
        column_start := s, column_end := e } ::
        streamGo find path n2 buf (rest.drop CONTEXT_LINES) fuel

/-- `find_matches_streaming` (`src/processor.rs` lines 314-352) over the list
of a file's lines. -/
def find_matches_streaming (find : Str → Option (Nat × Nat)) (path : Str)
    (lines : List Str) : List SearchMatch :=
  streamGo find path 0 [] lines (lines.length + 1)

/-- Each `streamGo` step consumes at least one line, so fuel exceeding the
number of remaining lines is irrelevant: the embedding computes the same list
as the unbounded Rust loop. -/
theorem streamGo_fuel_irrel (find : Str → Option (Nat × Nat)) (path : Str) :
    ∀ f₁ f₂ (lines : List Str) line_no buffer, lines.length < f₁ →
      lines.length < f₂ →
      streamGo find path line_no buffer lines f₁ =
        streamGo find path line_no buffer lines f₂ := by
  intro f₁
  induction f₁ with
  | zero => omega
  | succ f₁ ih =>
    intro f₂ lines line_no buffer h₁ h₂
    match f₂, h₂ with
    | f₂ + 1, h₂ =>
      cases lines with
      | nil => rfl
      | cons l rest =>
        simp only [streamGo]
        cases hfind : find l with
        | none =>
          exact ih f₂ rest _ _ (by simp at h₁; omega) (by simp at h₂; omega)
        | some se =>
          obtain ⟨s, e⟩ := se
          simp only []
          rw [ih f₂ (rest.drop CONTEXT_LINES) _ _
            (by have := List.length_drop CONTEXT_LINES rest; simp at h₁; omega)
            (by have := List.length_drop CONTEXT_LINES rest; simp at h₂; omega)]

/-- Claim C2: evaluating `find_matches_streaming` on the S1 scenario file
(`one` / `two pattern` / `three`, literal pattern `pattern`).  The code emits
exactly one record, but with `line_number` 3 (the counter was advanced while
reading the context-after line) and with the matching line itself included in
`context_before` — not the `line_number` 2 and `context_before [(1, one)]`
required by the claim (which the repository's own
`tests/unit/processor_test.rs::test_multiple_matches` also expects). -/
theorem find_matches_streaming_s1_eval :
    find_matches_streaming (literal_find "pattern".toList) "/tmp/s1/a.txt".toList
      ["one".toList, "two pattern".toList, "three".toList] =
    [{ path := "/tmp/s1/a.txt".toList, line_number := 3,
       line := "two pattern".toList,
       context_before := [(1, "one".toList), (2, "two pattern".toList)],
       context_after := [(3, "three".toList)],
       matched_text := "pattern".toList, column_start := 4, column_end := 11 }] := by
  decide

/-- `build_regex` (`src/main.rs` lines 580-587) in `SearchMode::Text`:
`regex::escape` the pattern and compile; the resulting regex matches exactly
the literal occurrences of the pattern, leftmost first, so its `find` on a
line is `literal_find`. -/
def build_regex_text (pat : Str) : Str → Option (Nat × Nat) :=
  literal_find pat

/-- Claim C8 counterexample: the empty pattern compiled by `build_regex`
(mode Text) is the empty regex, which matches at offset 0 of every line the
scanner examines, so searching a non-empty file emits at least one record
(here, a record for the file's first line) instead of the claimed empty
list.  (Not every line yields a record: lines pulled in as `context_after`
are skipped by the scanner.) -/
theorem empty_pattern_matches_counterexample :
    find_matches_streaming (build_regex_text []) "a.txt".toList ["ab".toList] ≠ [] := by
  decide

/-- Claim C8 (corrected): `SimdSearch::search` (which checks for the empty
needle explicitly) does return the empty match list for the empty pattern on
every input, and terminates; the claim fails for the regex path (see the
counterexample) and for `SimpleSearch`, whose loop slices out of bounds. -/
theorem simd_empty_pattern_empty (text : Str) : simdSearch [] text = [] := rfl

/-! ## File-type classifier (src/file_types.rs)

`FileTypeClassifier` and its methods are translated field for field.  Rust
`HashSet<String>` / `HashMap<String, _>` are modelled as lists with
`contains` / first-key lookup (the construction literals below contain no
duplicate keys, so the membership and lookup semantics agree).  I/O performed
by the Rust code is modelled by explicit arguments: `ext` models
`path.extension()`, `mime` the result of `infer::get_from_path`, and
`content` the result of `std::fs::read` (note: the Rust code reads the whole
file, then examines only its first 1024 bytes). -/

/-- `SearchMode` (src/file_types.rs lines 16-21). -/
inductive SearchMode where
  | FullText
  | Metadata
  | Filename
  | Structured
deriving DecidableEq, Repr

/-- `SearchDecision` (src/file_types.rs lines 8-12). -/
inductive SearchDecision where
  | Search (mode : SearchMode)
  | Skip (reason : String)
  | Conditional (mode : SearchMode) (note : String)
deriving DecidableEq, Repr

/-- `FileTypeClassifier` (src/file_types.rs lines 24-31). -/
structure FileTypeClassifier where
  always_search : List String
  conditional_search : List String
  skip_by_default : List String
  never_search : List String
  size_limits : List (String × Nat)
  search_modes : List (String × SearchMode)

/-- `FileTypeClassifier::new` (src/file_types.rs lines 34-212), with every
extension literal in source order (including the duplicated `tex`). -/
def FileTypeClassifier.new : FileTypeClassifier :=
  { always_search :=
      ["txt", "md", "rst", "org", "tex", "log", "readme", "changelog",
       "rs", "py", "js", "ts", "go", "java", "cpp", "c", "h", "hpp", "cs",
       "php", "rb", "swift", "kt", "scala", "dart", "r", "lua", "sh", "bash",
       "zsh", "fish", "ps1", "bat", "cmd",
       "html", "htm", "css", "scss", "sass", "less", "vue", "jsx", "tsx",
       "json", "yaml", "yml", "toml", "ini", "cfg", "conf", "config", "xml",
       "svg", "env", "properties", "dockerfile", "makefile",
       "csv", "tsv", "sql", "graphql", "gql",
       "adoc", "asciidoc", "tex", "latex", "pod"],
    conditional_search :=
      ["pdf", "docx", "xlsx", "pptx", "odt", "ods", "odp",
       "zip", "tar", "gz", "bz2", "xz", "7z", "rar", "cab",
       "db", "sqlite", "mdb", "accdb",
       "mp3", "flac", "wav", "aac", "ogg", "wma", "mp4", "mkv", "mov", "avi",
       "flv", "wmv", "webm", "m4v",
       "jpg", "jpeg", "png", "gif", "bmp", "webp", "ico", "tiff"],
    skip_by_default :=
      ["exe", "dll", "so", "dylib", "appimage", "bin", "class", "jar", "msi",
       "deb", "rpm", "snap", "apk", "ipa",
       "iso", "img", "vdi", "vmdk", "qcow2", "raw",
       "tmp", "temp", "swp", "bak", "backup", "lock", "pid"],
    never_search :=
      ["enc", "gpg", "asc", "sig", "key", "pem", "p12", "pfx", "core",
       "dump", "crash", "hs_err"],
    size_limits :=
      [("txt", 100 * 1024 * 1024), ("md", 50 * 1024 * 1024),
       ("rs", 50 * 1024 * 1024), ("py", 50 * 1024 * 1024),
       ("js", 50 * 1024 * 1024), ("json", 50 * 1024 * 1024),
       ("xml", 50 * 1024 * 1024), ("html", 50 * 1024 * 1024),
       ("css", 50 * 1024 * 1024), ("log", 200 * 1024 * 1024),
       ("pdf", 10 * 1024 * 1024), ("docx", 10 * 1024 * 1024),
       ("xlsx", 10 * 1024 * 1024), ("pptx", 10 * 1024 * 1024),
       ("zip", 20 * 1024 * 1024), ("tar", 20 * 1024 * 1024),
       ("gz", 20 * 1024 * 1024), ("7z", 20 * 1024 * 1024),
       ("mp4", 5 * 1024 * 1024), ("mp3", 5 * 1024 * 1024),
       ("jpg", 2 * 1024 * 1024), ("png", 2 * 1024 * 1024)],
    search_modes :=
      [("pdf", .Metadata), ("docx", .Metadata), ("xlsx", .Metadata),
       ("pptx", .Metadata), ("odt", .Metadata), ("ods", .Metadata),
       ("odp", .Metadata),
       ("zip", .Filename), ("tar", .Filename), ("gz", .Filename),
       ("bz2", .Filename), ("xz", .Filename), ("7z", .Filename),
       ("rar", .Filename), ("cab", .Filename),
       ("json", .Structured), ("xml", .Structured), ("yaml", .Structured),
       ("yml", .Structured), ("toml", .Structured),
       ("mp3", .Metadata), ("flac", .Metadata), ("wav", .Metadata),
       ("mp4", .Metadata), ("mkv", .Metadata), ("jpg", .Metadata),
       ("png", .Metadata)] }

/-- First-key association lookup (`HashMap::get`). -/
def assoc_get {α : Type} (m : List (String × α)) (k : String) : Option α :=
  (m.find? fun p => p.1 == k).map (·.2)

/-- `str::to_ascii_lowercase`. -/
def to_ascii_lowercase (s : String) : String :=
  String.mk (s.data.map fun c =>
    if 'A' ≤ c ∧ c ≤ 'Z' then Char.ofNat (c.toNat + 32) else c)

/-- `str::starts_with` for string patterns. -/
def starts_with (s p : String) : Bool :=
  p.data.isPrefixOf s.data

/-- `FileTypeClassifier::check_size_limits` (src/file_types.rs lines
251-268); default limit 50 MiB. -/
def check_size_limits (c : FileTypeClassifier) (ext : String) (size : Nat)
    (default_mode : SearchMode) : SearchDecision :=
  let limit := (assoc_get c.size_limits ext).getD (50 * 1024 * 1024)
  if limit < size then
    .Skip ("File too large: " ++ toString size ++ " bytes > " ++
      toString limit ++ " bytes (limit for ." ++ ext ++ ")")
  else
    .Search default_mode

/-- `FileTypeClassifier::check_conditional_search` (src/file_types.rs lines
270-287); default limit 10 MiB. -/
def check_conditional_search (c : FileTypeClassifier) (ext : String)
    (size : Nat) (search_mode : SearchMode) : SearchDecision :=
  let limit := (assoc_get c.size_limits ext).getD (10 * 1024 * 1024)
  if limit < size then
    .Skip ("Conditional file too large: " ++ toString size ++ " bytes > " ++
      toString limit ++ " bytes (limit for ." ++ ext ++ ")")
  else
    .Conditional search_mode ("Conditional search for ." ++ ext)

/-- `FileTypeClassifier::is_likely_text_file` (src/file_types.rs lines
326-342).  `content` is the result of `std::fs::read` (`none` = read error).
The Rust comparison `(sample_size - null_bytes) as f64 / sample_size as f64
> 0.9` is modelled exactly by the integer inequality
`9 * sample_size < 10 * (sample_size - null_bytes)`: with
`sample_size ≤ 1024` the rational value is never within f64 rounding error
of the constant `0.9`, so the float and integer comparisons agree. -/
def is_likely_text_file (content : Option (List Nat)) : Bool :=
  match content with
  | some bytes =>
    let sample_size := min bytes.length 1024
    if sample_size == 0 then false
    else
      let sample := bytes.take sample_size
      let null_bytes := (sample.filter fun b => b == 0).length
      decide (9 * sample_size < 10 * (sample_size - null_bytes))
  | none => false

/-- `FileTypeClassifier::classify_by_mime_type` (src/file_types.rs lines
304-324). -/
def classify_by_mime_type (c : FileTypeClassifier) (mime : String)
    (size : Nat) : SearchDecision :=
  if starts_with mime "text/" then .Search .FullText
  else if starts_with mime "application/json" || starts_with mime "application/xml" then
    .Search .Structured
  else if starts_with mime "application/pdf" then
    check_conditional_search c "pdf" size .Metadata
  else if starts_with mime "application/zip" || starts_with mime "application/x-tar" then
    check_conditional_search c "zip" size .Filename
  else if starts_with mime "image/" || starts_with mime "video/" || starts_with mime "audio/" then
    check_conditional_search c "media" size .Metadata
  else if starts_with mime "application/octet-stream" then
    .Skip "Binary file detected"
  else
    .Skip ("Unknown MIME type: " ++ mime)

/-- `FileTypeClassifier::classify_by_mime` (src/file_types.rs lines
289-302): use the `infer` MIME result when available, otherwise fall back to
the null-byte text heuristic on the file content. -/
def classify_by_mime (c : FileTypeClassifier) (mime : Option String)
    (size : Nat) (content : Option (List Nat)) : SearchDecision :=
  match mime with
  | some m => classify_by_mime_type c m size
  | none =>
    if is_likely_text_file content then .Search .FullText
    else .Skip "Unknown file type, not text-like"

/-- `FileTypeClassifier::should_search` (src/file_types.rs lines 215-249). -/
def should_search (c : FileTypeClassifier) (ext_raw : Option String)
    (size : Nat) (mime : Option String) (content : Option (List Nat)) :
    SearchDecision :=
  let ext := (ext_raw.map to_ascii_lowercase).getD ""
  if c.never_search.contains ext then
    .Skip ("Never search file type: " ++ ext)
  else if c.always_search.contains ext then
    check_size_limits c ext size .FullText
  else if c.conditional_search.contains ext then
    let search_mode := (assoc_get c.search_modes ext).getD .Metadata
    check_conditional_search c ext size search_mode
  else if c.skip_by_default.contains ext then
    .Skip ("Skip by default: " ++ ext)
  else
    classify_by_mime c mime size content

/-- `HashSet::insert`, as membership-preserving list insertion. -/
def set_insert (l : List String) (x : String) : List String :=
  if l.contains x then l else l ++ [x]

/-- `HashMap::insert` (replace or append). -/
def map_insert {α : Type} (m : List (String × α)) (k : String) (v : α) :
    List (String × α) :=
  if m.any (·.1 == k) then
    m.map fun p => if p.1 == k then (k, v) else p
  else m ++ [(k, v)]

/-- `FileTypeClassifier::add_custom_rule` (src/file_types.rs lines 375-389):
it only inserts into the target set; it never removes the extension from the
other sets. -/
def add_custom_rule (c : FileTypeClassifier) (ext : String)
    (decision : SearchDecision) : FileTypeClassifier :=
  match decision with
  | .Search mode =>
    { c with always_search := set_insert c.always_search ext,
             search_modes := map_insert c.search_modes ext mode }
  | .Skip _ =>
    { c with never_search := set_insert c.never_search ext }
  | .Conditional mode _ =>
    { c with conditional_search := set_insert c.conditional_search ext,
             search_modes := map_insert c.search_modes ext mode }

/-- The invariant of claim C9: the four extension sets are pairwise
disjoint. -/
def ext_sets_disjoint (c : FileTypeClassifier) : Prop :=
  (∀ x ∈ c.always_search,
     x ∉ c.conditional_search ∧ x ∉ c.skip_by_default ∧ x ∉ c.never_search) ∧
  (∀ x ∈ c.conditional_search,
     x ∉ c.skip_by_default ∧ x ∉ c.never_search) ∧
  (∀ x ∈ c.skip_by_default, x ∉ c.never_search)

/-- Claim C9 (corrected): in the freshly constructed classifier the four
extension sets are pairwise disjoint.  (`add_custom_rule` does not preserve
this — see the counterexample.) -/
theorem new_classifier_sets_disjoint : ext_sets_disjoint FileTypeClassifier.new := by
  unfold ext_sets_disjoint
  decide

/-- Claim C9 counterexample: `add_custom_rule("pdf", Search(FullText))`
inserts `pdf` into `always_search` while `pdf` stays in
`conditional_search`, so disjointness is not preserved. -/
theorem add_custom_rule_breaks_disjoint :
    ¬ ext_sets_disjoint
        (add_custom_rule FileTypeClassifier.new "pdf" (.Search .FullText)) := by
  unfold ext_sets_disjoint
  decide

/-- Taking `min length n` elements is the same as taking `n`. -/
theorem take_min_self (l : List Nat) (n : Nat) : l.take (min l.length n) = l.take n := by
  rcases Nat.le_total l.length n with h | h
  · rw [Nat.min_eq_left h, List.take_length, List.take_of_length_le h]
  · rw [Nat.min_eq_right h]

/-- For a non-empty file content, the text heuristic accepts exactly when
strictly fewer than 10% of the first 1 KiB are null bytes. -/
theorem is_likely_text_file_iff (bytes : List Nat) (h5 : bytes ≠ []) :
    (is_likely_text_file (some bytes) = true ↔
      10 * ((bytes.take 1024).filter (fun b => b == 0)).length <
        (bytes.take 1024).length) := by
  simp only [is_likely_text_file]
  have hlen0 : bytes.length ≠ 0 := fun hh => h5 (List.length_eq_zero.mp hh)
  have hMin : min bytes.length 1024 ≠ 0 := by omega
  rw [take_min_self]
  rw [if_neg (by simpa using hMin)]
  rw [decide_eq_true_eq]
  have hfil : ((bytes.take 1024).filter fun b => b == 0).length ≤
      (bytes.take 1024).length := List.length_filter_le _ _
  have hlen : (bytes.take 1024).length = min 1024 bytes.length :=
    List.length_take _ _
  omega

/-- Claim C6 (corrected): only when MIME detection yields NO known type does
the null-byte check apply: the file is then classified `Search(FullText)`
exactly when strictly fewer than 10% of its first 1 KiB are null bytes (and
`Skip` otherwise).  When the detected MIME type is
`application/octet-stream` the code skips unconditionally — see the
counterexample. -/
theorem unknown_type_null_check (c : FileTypeClassifier) (ext : String)
    (size : Nat) (bytes : List Nat)
    (h1 : c.never_search.contains (to_ascii_lowercase ext) = false)
    (h2 : c.always_search.contains (to_ascii_lowercase ext) = false)
    (h3 : c.conditional_search.contains (to_ascii_lowercase ext) = false)
    (h4 : c.skip_by_default.contains (to_ascii_lowercase ext) = false)
    (h5 : bytes ≠ []) :
    (should_search c (some ext) size none (some bytes) = .Search .FullText ↔
      10 * ((bytes.take 1024).filter (fun b => b == 0)).length <
        (bytes.take 1024).length) := by
  unfold should_search
  simp only [Option.map_some', Option.getD_some, h1, h2, h3, h4,
    Bool.false_eq_true, if_false]
  unfold classify_by_mime
  by_cases hl : is_likely_text_file (some bytes) = true
  · simp only [hl, if_true]
    simp only [true_iff]
    exact (is_likely_text_file_iff bytes h5).mp hl
  · simp only [hl, Bool.false_eq_true, if_false]
    constructor
    · intro hcontra
      cases hcontra
    · intro harith
      exact absurd ((is_likely_text_file_iff bytes h5).mpr harith) hl

/-- Claim C6 witness: a one-byte non-null file with unknown extension and no
detected MIME type is classified `Search(FullText)`. -/
theorem unknown_type_null_check_witness :
    FileTypeClassifier.new.never_search.contains (to_ascii_lowercase "xyz") = false ∧
    FileTypeClassifier.new.always_search.contains (to_ascii_lowercase "xyz") = false ∧
    FileTypeClassifier.new.conditional_search.contains (to_ascii_lowercase "xyz") = false ∧
    FileTypeClassifier.new.skip_by_default.contains (to_ascii_lowercase "xyz") = false ∧
    ([97] : List Nat) ≠ [] ∧
    should_search FileTypeClassifier.new (some "xyz") 5 none (some [97]) =
      .Search .FullText :=
  ⟨by decide, by decide, by decide, by decide, by decide,
   (unknown_type_null_check FileTypeClassifier.new "xyz" 5 [97]
     (by decide) (by decide) (by decide) (by decide) (by decide)).mpr (by decide)⟩

/-- Claim C6 counterexample: a file whose first KiB holds zero null bytes but
whose MIME type is `application/octet-stream` is skipped unconditionally,
not classified `Search(FullText)` as claimed. -/
theorem octet_stream_skip_counterexample :
    is_likely_text_file (some (List.replicate 100 97)) = true ∧
    should_search FileTypeClassifier.new (some "xyz") 100
      (some "application/octet-stream") (some (List.replicate 100 97)) =
      .Skip "Binary file detected" := by
  decide

/-- The heuristic only examines the first 1 KiB of the content. -/
theorem is_likely_text_file_take (b1 b2 : List Nat)
    (h : b1.take 1024 = b2.take 1024) :
    is_likely_text_file (some b1) = is_likely_text_file (some b2) := by
  have hlen : min b1.length 1024 = min b2.length 1024 := by
    have h2 := congrArg List.length h
    simp only [List.length_take] at h2
    omega
  simp only [is_likely_text_file]
  rw [take_min_self b1, take_min_self b2, h, hlen]

/-- `classify_by_mime` depends on the file content only through its first
1 KiB. -/
theorem classify_by_mime_take (c : FileTypeClassifier) (mime : Option String)
    (size : Nat) (b1 b2 : List Nat) (h : b1.take 1024 = b2.take 1024) :
    classify_by_mime c mime size (some b1) = classify_by_mime c mime size (some b2) := by
  cases mime with
  | some m => rfl
  | none =>
    simp only [classify_by_mime]
    rw [is_likely_text_file_take b1 b2 h]

/-- Claim C7 (corrected): the classifier is deterministic and examines at
most the first 1 KiB of the file content — two contents agreeing on their
first 1 KiB yield the same decision for the same (extension, size, MIME)
inputs.  The decision is NOT a function of `(path, stat, config)` alone (see
the counterexample), and the fallback reads the entire file via
`std::fs::read` even though it only examines 1 KiB of it. -/
theorem should_search_depends_on_first_kib (c : FileTypeClassifier)
    (ext_raw : Option String) (size : Nat) (mime : Option String)
    (b1 b2 : List Nat) (h : b1.take 1024 = b2.take 1024) :
    should_search c ext_raw size mime (some b1) =
      should_search c ext_raw size mime (some b2) := by
  simp only [should_search]
  repeat' split
  any_goals rfl
  exact classify_by_mime_take c mime size b1 b2 h

set_option maxRecDepth 100000 in
/-- Claim C7 witness: contents of lengths 1025 and 1024 agreeing on the first
1 KiB get the same decision. -/
theorem should_search_depends_on_first_kib_witness :
    (List.replicate 1025 97 : List Nat).take 1024 =
      (List.replicate 1024 97 ++ [0] : List Nat).take 1024 ∧
    should_search FileTypeClassifier.new (some "xyz") 2000 none
        (some (List.replicate 1025 97)) =
      should_search FileTypeClassifier.new (some "xyz") 2000 none
        (some (List.replicate 1024 97 ++ [0])) :=
  ⟨by decide,
   should_search_depends_on_first_kib FileTypeClassifier.new (some "xyz") 2000
     none (List.replicate 1025 97) (List.replicate 1024 97 ++ [0]) (by decide)⟩

set_option maxRecDepth 100000 in
/-- Claim C7 counterexample: two calls with identical `(path, stat, config)`
— same extension `xyz`, same size 1024, no detected MIME type — but
different file contents at classification time return different decisions,
so classification is not a pure function of `(path, stat, config)`. -/
theorem classify_content_dependent_counterexample :
    should_search FileTypeClassifier.new (some "xyz") 1024 none
        (some (List.replicate 1024 97)) = .Search .FullText ∧
    should_search FileTypeClassifier.new (some "xyz") 1024 none
        (some (List.replicate 1024 0)) = .Skip "Unknown file type, not text-like" := by
  decide

/-! ## NDJSON serialization and the worker protocol

`JsonValue` models `serde_json::Value` (restricted to the shapes produced
here: strings, non-negative integers, arrays, objects).
`ndjson_match_obj` mirrors the per-match object built by
`OutputFormatter::format_json` in NDJSON mode with the default
`include_context = true` (src/output_formats.rs lines 76-136): note that the
context entries are emitted as `{"line_number": n, "content": line}`
OBJECTS.  `match_from_json` mirrors the serde-derived `Deserialize` for
`SearchMatch` used by the orchestrator to parse worker stdout
(src/main.rs lines 732-754): unknown fields (such as `query`) are ignored,
all eight struct fields are required, and a `Vec<(usize, String)>` entry
deserializes only from a 2-element ARRAY `[n, line]`. -/

/-- `serde_json::Value`, restricted to the shapes used by the pipeline. -/
inductive JsonValue where
  | str (s : Str)
  | num (n : Nat)
  | arr (elems : List JsonValue)
  | obj (fields : List (Str × JsonValue))

/-- Object field lookup (`Value::get` / serde struct field access). -/
def lookup_field (fields : List (Str × JsonValue)) (k : Str) : Option JsonValue :=
  (fields.find? fun p => p.1 == k).map (·.2)

/-- Deserialize a `usize`. -/
def nat_from_json : JsonValue → Option Nat
  | .num n => some n
  | _ => none

/-- Deserialize a `String`. -/
def str_from_json : JsonValue → Option Str
  | .str s => some s
  | _ => none

/-- Deserialize a `(usize, String)` tuple: serde requires a 2-element array. -/
def ctx_entry_from_json : JsonValue → Option (Nat × Str)
  | .arr [a, b] => do
    let n ← nat_from_json a
    let s ← str_from_json b
    pure (n, s)
  | _ => none

/-- Deserialize a `Vec<(usize, String)>`. -/
def ctx_from_json : JsonValue → Option (List (Nat × Str))
  | .arr xs => xs.mapM ctx_entry_from_json
  | _ => none

/-- The serde-derived `Deserialize` for `SearchMatch`. -/
def match_from_json : JsonValue → Option SearchMatch
  | .obj fields => do
    let path ← lookup_field fields "path".toList >>= str_from_json
    let line_number ← lookup_field fields "line_number".toList >>= nat_from_json
    let line ← lookup_field fields "line".toList >>= str_from_json
    let context_before ← lookup_field fields "context_before".toList >>= ctx_from_json
    let context_after ← lookup_field fields "context_after".toList >>= ctx_from_json
    let matched_text ← lookup_field fields "matched_text".toList >>= str_from_json
    let column_start ← lookup_field fields "column_start".toList >>= nat_from_json
    let column_end ← lookup_field fields "column_end".toList >>= nat_from_json
    pure { path := path, line_number := line_number, line := line,
           context_before := context_before, context_after := context_after,
           matched_text := matched_text, column_start := column_start,
           column_end := column_end }
  | _ => none

/-- A context entry as emitted by `format_json`: an OBJECT, not a pair. -/
def ctx_entry_to_json (p : Nat × Str) : JsonValue :=
  .obj [("line_number".toList, .num p.1), ("content".toList, .str p.2)]

/-- The per-match NDJSON object emitted by `OutputFormatter::format_json`
with `ndjson = true` and the default `include_context = true`, fields in
emission order. -/
def ndjson_match_obj (query : Str) (m : SearchMatch) : JsonValue :=
  .obj [("query".toList, .str query),
        ("path".toList, .str m.path),
        ("line_number".toList, .num m.line_number),
        ("line".toList, .str m.line),
        ("matched_text".toList, .str m.matched_text),
        ("column_start".toList, .num m.column_start),
        ("column_end".toList, .num m.column_end),
        ("context_before".toList, .arr (m.context_before.map ctx_entry_to_json)),
        ("context_after".toList, .arr (m.context_after.map ctx_entry_to_json))]

/-- The MatchRecord of scenario S1 as the claim states it. -/
def s1_claim_record : SearchMatch :=
  { path := "/tmp/s1/a.txt".toList, line_number := 2,
    line := "two pattern".toList,
    context_before := [(1, "one".toList)],
    context_after := [(3, "three".toList)],
    matched_text := "pattern".toList, column_start := 4, column_end := 11 }

/-- Claim C3: the NDJSON round-trip law fails on any record with non-empty
context.  `format_json` emits the context entries as
`{"line_number", "content"}` objects, while the serde-derived
`Deserialize` for `SearchMatch` (used by the orchestrator on worker stdout)
and the documented schema require `[line_number, line]` pairs, so parsing
the emitted line fails and yields no record at all. -/
theorem ndjson_roundtrip_fails_on_context :
    match_from_json (ndjson_match_obj "pattern".toList s1_claim_record) = none := by
  decide

/-! ## Worker isolation and the per-file timeout (src/main.rs lines 589-763)

`process_file_worker` models the worker phase of `process_file` when
`timeout_per_file` is set: the orchestrator polls the child; on timeout it
kills the child's process group, bumps the `worker_timeouts` metric and
returns `Ok(vec![])` WITHOUT reading the child's stdout; otherwise it parses
each stdout line as a `SearchMatch` (с the `matches`-array object as
fallback).  `timed_out` abstracts the wall-clock comparison
`start.elapsed() > dur`; `stdout_lines` are the parsed JSON values of the
lines the worker flushed. -/

/-- The metrics counters touched by `process_file` (src/metrics.rs). -/
structure Metrics where
  files_scanned : Nat
  files_skipped : Nat
  matches_found : Nat
  worker_timeouts : Nat
deriving DecidableEq, Repr

/-- Parsing of one worker stdout line (src/main.rs lines 733-754). -/
def parse_worker_line (j : JsonValue) : List SearchMatch :=
  match match_from_json j with
  | some m => [m]
  | none =>
    match j with
    | .obj fields =>
      match lookup_field fields "matches".toList with
      | some (.arr xs) => xs.filterMap match_from_json
      | _ => []
    | _ => []

/-- The worker phase of `process_file` (src/main.rs lines 674-762). -/
def process_file_worker (timed_out : Bool) (stdout_lines : List JsonValue)
    (m : Metrics) : List SearchMatch × Metrics :=
  if timed_out then
    ([], { m with worker_timeouts := m.worker_timeouts + 1 })
  else
    let results := stdout_lines.flatMap parse_worker_line
    if results.isEmpty then
      (results, { m with files_skipped := m.files_skipped + 1 })
    else
      (results, { m with matches_found := m.matches_found + results.length })

/-- Claim C5 (corrected): when the per-file timeout fires, the worker's
process group is killed, the file is accounted as a `worker_timeout` in the
metrics, and the run continues normally — but the matches the worker had
already flushed to stdout are DISCARDED: the orchestrator returns the empty
list without reading the child's output. -/
theorem worker_timeout_result (stdout_lines : List JsonValue) (m : Metrics) :
    process_file_worker true stdout_lines m =
      ([], { m with worker_timeouts := m.worker_timeouts + 1 }) := rfl

/-- A match the worker flushed before being killed (parseable: its context
lists are empty). -/
def c5_flushed_record : SearchMatch :=
  { path := "/tmp/s6/slow.txt".toList, line_number := 1, line := "hit".toList,
    context_before := [], context_after := [],
    matched_text := "hit".toList, column_start := 0, column_end := 3 }

/-- Claim C5 counterexample: the very same flushed stdout line that parses
to a match on the no-timeout path is thrown away on the timeout path, so
"any matches the worker had already flushed are kept" is false. -/
theorem worker_timeout_discards_counterexample :
    (process_file_worker false [ndjson_match_obj "hit".toList c5_flushed_record]
        ⟨0, 0, 0, 0⟩).1 = [c5_flushed_record] ∧
    (process_file_worker true [ndjson_match_obj "hit".toList c5_flushed_record]
        ⟨0, 0, 0, 0⟩).1 = [] ∧
    (process_file_worker true [ndjson_match_obj "hit".toList c5_flushed_record]
        ⟨0, 0, 0, 0⟩).2.worker_timeouts = 1 := by
  decide

/-! ## Pre-scan skip heuristic (src/processor.rs lines 100-205, 228-240)

`should_skip` is translated branch for branch; its I/O probes are passed as
data: `is_dir` and `is_special` from the `Metadata` file type, 
`canon_in_proc_dev` models the `/proc`-`/dev` canonical-path test, `ext` the
path extension, `mode` the Unix permission bits, `size` the file length and
`infer_mime` the `infer::get_from_path` result.  `search_file_result` models
`search_file`: when the heuristic fires it returns `Ok(vec![])` before any
content is read; `scan` stands for whatever the content scan would have
produced. -/

/-- `SKIP_EXTENSIONS` (src/processor.rs lines 144-149). -/
def SKIP_EXTENSIONS : List String :=
  ["jpg", "jpeg", "png", "gif", "bmp", "webp", "ico", "mp4", "mkv", "mov",
   "avi", "flv", "wmv", "webm", "mp3", "flac", "wav", "aac", "ogg", "pdf",
   "doc", "docx", "xls", "xlsx", "ppt", "pptx", "exe", "dll", "so", "dylib",
   "appimage", "bin", "class", "jar", "iso", "img", "cab", "zip", "tar",
   "gz", "tgz", "7z", "rar"]

/-- `should_skip` (src/processor.rs lines 102-205), Unix configuration. -/
def should_skip (is_dir : Bool) (canon_in_proc_dev : Bool) (is_special : Bool)
    (ext : Option String) (mode : Nat) (size : Nat)
    (infer_mime : Option String) : Bool :=
  if is_dir then true
  else if canon_in_proc_dev then true
  else if is_special then true
  else if (match ext with
           | some e => SKIP_EXTENSIONS.contains (to_ascii_lowercase e)
           | none => false) then true
  else if Nat.land mode 0o111 ≠ 0 then true
  else if 100 * 1024 * 1024 < size then true
  else
    match infer_mime with
    | some mime => !(starts_with mime "text/")
    | none => false

/-- `search_file` (src/processor.rs lines 228-240) up to the pre-scan
heuristic: if `should_skip` fires, the empty match list is returned before
any content is scanned; otherwise the scan result is returned. -/
def search_file_result (is_dir canon_in_proc_dev is_special : Bool)
    (ext : Option String) (mode size : Nat) (infer_mime : Option String)
    (scan : List SearchMatch) : List SearchMatch :=
  if should_skip is_dir canon_in_proc_dev is_special ext mode size infer_mime
  then [] else scan

/-- Claim C10: on Unix, any file whose permission mode has an executable bit
(0o111) set is skipped by the pre-scan heuristic — `search_file` returns the
empty match list — regardless of its extension, size or contents. -/
theorem executable_files_skipped (is_dir canon_in_proc_dev is_special : Bool)
    (ext : Option String) (mode size : Nat) (infer_mime : Option String)
    (scan : List SearchMatch) (h : Nat.land mode 0o111 ≠ 0) :
    should_skip is_dir canon_in_proc_dev is_special ext mode size infer_mime = true ∧
    search_file_result is_dir canon_in_proc_dev is_special ext mode size
      infer_mime scan = [] := by
  have hskip : should_skip is_dir canon_in_proc_dev is_special ext mode size
      infer_mime = true := by
    simp [should_skip, h, ite_self]
  exact ⟨hskip, by simp [search_file_result, hskip]⟩

/-- Claim C10 witness: a regular `.txt` file with mode 0o755 and a non-empty
scan result is nevertheless skipped. -/
theorem executable_files_skipped_witness :
    Nat.land 0o755 0o111 ≠ 0 ∧
    (should_skip false false false (some "txt") 0o755 10 none = true ∧
     search_file_result false false false (some "txt") 0o755 10 none
       [{ path := "a.txt".toList, line_number := 1, line := "hit".toList,
          context_before := [], context_after := [],
          matched_text := "hit".toList, column_start := 0, column_end := 3 }] = []) :=
  ⟨by decide,
   executable_files_skipped false false false (some "txt") 0o755 10 none
     [{ path := "a.txt".toList, line_number := 1, line := "hit".toList,
        context_before := [], context_after := [],
        matched_text := "hit".toList, column_start := 0, column_end := 3 }]
     (by decide)⟩

/-! ## Aggregation and global ordering (src/main.rs lines 237-245)

The aggregated pipeline collects per-file match lists and runs
`matches.sort()`.  `SearchMatch` derives `Ord`, which compares the EIGHT
fields lexicographically in declaration order — `path, line_number, line,
context_before, context_after, matched_text, column_start, column_end`.
The `path` field is a `PathBuf`, and Rust's `Ord` for `Path` is NOT the
byte-wise order on the path string: it compares `Path::components()`
lexicographically as a sequence, with `Normal` components compared
byte-wise.  The two orders genuinely disagree — byte-wise
`"foo-bar.txt" < "foo/baz.txt"` (0x2D < 0x2F) but component-wise
`["foo", "baz.txt"] < ["foo-bar.txt"]` (`"foo"` is a proper prefix of
`"foo-bar.txt"`).  `path_components` models the component decomposition,
`derived_ord_key` the derived `Ord` as a nested lexicographic key (Rust
compares `String` and `Vec` values lexicographically, which for UTF-8
strings agrees with the code-point order on `List Char`); `sort_matches`
models `Vec::sort`, whose only relevant contract is: the result is a
permutation of the input, sorted by the derived order. -/

/-- `Path::components()` for normalized paths: split the path string on
`/`.  For the paths the walker yields (no `.` segments, no repeated or
trailing separators) this is exactly Rust's decomposition; for an absolute
path the leading `RootDir` component becomes the empty segment, which is
least — just as `RootDir` orders below every `Normal` component. -/
def path_components (p : Str) : List Str :=
  match p with
  | [] => [[]]
  | c :: rest =>
    match path_components rest with
    | [] => [[]]
    | h :: t => if c = '/' then [] :: h :: t else (c :: h) :: t

/-- Key type for the context-list fields under the derived order. -/
abbrev CtxKey := List (Nat ×ₗ Str)

/-- Key type of the derived `Ord` on `SearchMatch`: the path as its
component sequence, then the remaining fields. -/
abbrev MatchKey :=
  (List Str) ×ₗ (Nat ×ₗ (Str ×ₗ (CtxKey ×ₗ (CtxKey ×ₗ (Str ×ₗ (Nat ×ₗ Nat))))))

/-- The derived `Ord` on `SearchMatch` as a lexicographic key over its
fields in declaration order, the `PathBuf` field compared component-wise. -/
def derived_ord_key (m : SearchMatch) : MatchKey :=
  toLex (path_components m.path, toLex (m.line_number, toLex (m.line,
    toLex (m.context_before.map toLex, toLex (m.context_after.map toLex,
      toLex (m.matched_text, toLex (m.column_start, m.column_end)))))))

/-- The total order used by `matches.sort()`. -/
def rust_le (a b : SearchMatch) : Prop :=
  derived_ord_key a ≤ derived_ord_key b

instance : DecidableRel rust_le := fun a b =>
  inferInstanceAs (Decidable (derived_ord_key a ≤ derived_ord_key b))

instance : IsTotal SearchMatch rust_le :=
  ⟨fun a b => le_total (derived_ord_key a) (derived_ord_key b)⟩

instance : IsTrans SearchMatch rust_le :=
  ⟨fun _ _ _ h1 h2 => le_trans h1 h2⟩

/-- `matches.sort()`: a sorted permutation under the derived `Ord`. -/
def sort_matches (l : List SearchMatch) : List SearchMatch :=
  l.insertionSort rust_le

/-- The aggregated search result: scan each enumerated file with the
in-process scanner, collect, and sort (src/main.rs lines 183-245). -/
def aggregate_matches (find : Str → Option (Nat × Nat))
    (files : List (Str × List Str)) : List SearchMatch :=
  sort_matches (files.flatMap fun pf => find_matches_streaming find pf.1 pf.2)

/-- The four-component comparison key exactly as claim C4 states it:
`path` compared BYTE-WISE, then `line_number`, then `column_start`, then
`column_end`. -/
def key4_le (a b : SearchMatch) : Prop :=
  a.path < b.path ∨ (a.path = b.path ∧
    (a.line_number < b.line_number ∨ (a.line_number = b.line_number ∧
      (a.column_start < b.column_start ∨ (a.column_start = b.column_start ∧
        a.column_end ≤ b.column_end)))))

/-- The four-component key under the order the program actually sorts by:
`path` compared COMPONENT-WISE (as Rust `Path::cmp` does), then
`line_number`, then `column_start`, then `column_end`. -/
def key4_le_components (a b : SearchMatch) : Prop :=
  path_components a.path < path_components b.path ∨
    (path_components a.path = path_components b.path ∧
      (a.line_number < b.line_number ∨ (a.line_number = b.line_number ∧
        (a.column_start < b.column_start ∨ (a.column_start = b.column_start ∧
          a.column_end ≤ b.column_end)))))

instance : DecidableRel key4_le := fun a b =>
  inferInstanceAs (Decidable (a.path < b.path ∨ (a.path = b.path ∧
    (a.line_number < b.line_number ∨ (a.line_number = b.line_number ∧
      (a.column_start < b.column_start ∨ (a.column_start = b.column_start ∧
        a.column_end ≤ b.column_end)))))))

instance : DecidableRel key4_le_components := fun a b =>
  inferInstanceAs (Decidable (path_components a.path < path_components b.path ∨
    (path_components a.path = path_components b.path ∧
      (a.line_number < b.line_number ∨ (a.line_number = b.line_number ∧
        (a.column_start < b.column_start ∨ (a.column_start = b.column_start ∧
          a.column_end ≤ b.column_end)))))))

/-- Every record the streaming scanner emits carries the scanned file's
path. -/
theorem streamGo_path (find : Str → Option (Nat × Nat)) (path : Str) :
    ∀ fuel (lines : List Str) line_no buffer m,
      m ∈ streamGo find path line_no buffer lines fuel → m.path = path := by
  intro fuel
  induction fuel with
  | zero =>
    intro lines line_no buffer m hm
    cases lines <;> simp [streamGo] at hm
  | succ fuel ih =>
    intro lines line_no buffer m hm
    cases lines with
    | nil => simp [streamGo] at hm
    | cons l rest =>
      simp only [streamGo] at hm
      cases hfind : find l with
      | none =>
        rw [hfind] at hm
        exact ih rest _ _ m hm
      | some se =>
        obtain ⟨s, e⟩ := se
        rw [hfind] at hm
        simp only [List.mem_cons] at hm
        rcases hm with rfl | hm
        · rfl
        · exact ih (rest.drop CONTEXT_LINES) _ _ m hm

/-- Every record the streaming scanner emits has a line number strictly
greater than the running counter. -/
theorem streamGo_line_gt (find : Str → Option (Nat × Nat)) (path : Str) :
    ∀ fuel (lines : List Str) line_no buffer m,
      m ∈ streamGo find path line_no buffer lines fuel →
        line_no < m.line_number := by
  intro fuel
  induction fuel with
  | zero =>
    intro lines line_no buffer m hm
    cases lines <;> simp [streamGo] at hm
  | succ fuel ih =>
    intro lines line_no buffer m hm
    cases lines with
    | nil => simp [streamGo] at hm
    | cons l rest =>
      simp only [streamGo] at hm
      cases hfind : find l with
      | none =>
        rw [hfind] at hm
        have := ih rest _ _ m hm
        omega
      | some se =>
        obtain ⟨s, e⟩ := se
        rw [hfind] at hm
        simp only [List.mem_cons] at hm
        rcases hm with rfl | hm
        · simp only []
          omega
        · have := ih (rest.drop CONTEXT_LINES) _ _ m hm
          omega

/-- Within one file the streaming scanner emits strictly increasing line
numbers. -/
theorem streamGo_pairwise (find : Str → Option (Nat × Nat)) (path : Str) :
    ∀ fuel (lines : List Str) line_no buffer,
      (streamGo find path line_no buffer lines fuel).Pairwise
        (fun a b => a.line_number < b.line_number) := by
  intro fuel
  induction fuel with
  | zero =>
    intro lines line_no buffer
    cases lines <;> simp [streamGo]
  | succ fuel ih =>
    intro lines line_no buffer
    cases lines with
    | nil => simp [streamGo]
    | cons l rest =>
      simp only [streamGo]
      cases hfind : find l with
      | none => exact ih rest _ _
      | some se =>
        obtain ⟨s, e⟩ := se
        simp only []
        rw [List.pairwise_cons]
        refine ⟨fun b hb => ?_, ih (rest.drop CONTEXT_LINES) _ _⟩
        exact streamGo_line_gt find path fuel (rest.drop CONTEXT_LINES) _ _ b hb

/-- If the derived order holds and the `(path components, line_number)`
pairs differ, the component-wise four-component key order holds. -/
theorem rust_le_key4 (a b : SearchMatch) (h1 : rust_le a b)
    (h2 : ¬(path_components a.path = path_components b.path ∧
            a.line_number = b.line_number)) :
    key4_le_components a b := by
  unfold rust_le derived_ord_key at h1
  rw [Prod.Lex.le_iff] at h1
  rcases h1 with hlt | ⟨heq, hrest⟩
  · exact Or.inl hlt
  · right
    refine ⟨heq, ?_⟩
    rw [Prod.Lex.le_iff] at hrest
    rcases hrest with hlt2 | ⟨heq2, _⟩
    · exact Or.inl hlt2
    · exact absurd ⟨heq, heq2⟩ h2

/-- Claim C4 (corrected): for any pattern and any enumeration of files with
pairwise distinct component sequences (each file enumerated once), the final
aggregated match list is non-decreasing under the
`(path, line_number, column_start, column_end)` key where `path` is
compared COMPONENT-WISE, as Rust's `PathBuf` `Ord` — used by
`matches.sort()` — actually compares paths; the claim's byte-wise path
comparison is refuted by the counterexample.  (The sort uses the full
derived eight-field `Ord`, but records of one run never share a
`(path, line_number)` pair, on which the two orders agree.) -/
theorem aggregated_matches_component_key_sorted
    (find : Str → Option (Nat × Nat)) (files : List (Str × List Str))
    (hnodup : (files.map fun pf => path_components pf.1).Nodup) :
    (aggregate_matches find files).Chain' key4_le_components := by
  set L := files.flatMap fun pf => find_matches_streaming find pf.1 pf.2 with hL
  have hsorted : (sort_matches L).Pairwise rust_le :=
    List.sorted_insertionSort rust_le L
  have hLpair : L.Pairwise fun a b =>
      ¬(path_components a.path = path_components b.path ∧
        a.line_number = b.line_number) := by
    rw [hL, List.pairwise_flatMap]
    constructor
    · intro pf _
      have := streamGo_pairwise find pf.1 (pf.2.length + 1) pf.2 0 []
      exact this.imp fun hab ⟨_, h2⟩ => by omega
    · have hf : files.Pairwise fun p q =>
          path_components p.1 ≠ path_components q.1 := by
        rw [List.Nodup, List.pairwise_map] at hnodup
        exact hnodup
      refine hf.imp ?_
      intro p q hpq x hx y hy
      have hxp : x.path = p.1 := streamGo_path find p.1 _ p.2 0 [] x hx
      have hyq : y.path = q.1 := streamGo_path find q.1 _ q.2 0 [] y hy
      intro ⟨hpath, _⟩
      rw [hxp, hyq] at hpath
      exact hpq hpath
  have hperm : (sort_matches L).Perm L := List.perm_insertionSort rust_le L
  have hsortpair : (sort_matches L).Pairwise
      fun a b => ¬(path_components a.path = path_components b.path ∧
        a.line_number = b.line_number) := by
    refine (hperm.pairwise_iff ?_).mpr hLpair
    intro x y hxy ⟨h1, h2⟩
    exact hxy ⟨h1.symm, h2.symm⟩
  have : (sort_matches L).Pairwise key4_le_components :=
    (hsorted.and hsortpair).imp fun ⟨ha, hb⟩ => rust_le_key4 _ _ ha hb
  exact this.chain'

/-- Claim C4 witness: two one-line files with distinct paths; the aggregated
output is sorted under the component-wise four-component key. -/
theorem aggregated_matches_component_key_sorted_witness :
    (([("a.txt".toList, ["hit".toList]), ("b.txt".toList, ["hit".toList])].map
        fun pf => path_components pf.1).Nodup) ∧
    (aggregate_matches (literal_find "hit".toList)
        [("a.txt".toList, ["hit".toList]),
         ("b.txt".toList, ["hit".toList])]).Chain' key4_le_components :=
  ⟨by decide,
   aggregated_matches_component_key_sorted (literal_find "hit".toList)
     [("a.txt".toList, ["hit".toList]), ("b.txt".toList, ["hit".toList])]
     (by decide)⟩

/-- The two records of the claim C4 counterexample run, as the streaming
scanner produces them (one-line files, so the ring buffer puts the matching
line itself into `context_before`). -/
def c4_rec_baz : SearchMatch :=
  { path := "foo/baz.txt".toList, line_number := 1, line := "hit".toList,
    context_before := [(1, "hit".toList)], context_after := [],
    matched_text := "hit".toList, column_start := 0, column_end := 3 }

/-- The `foo-bar.txt` record of the claim C4 counterexample run. -/
def c4_rec_bar : SearchMatch :=
  { path := "foo-bar.txt".toList, line_number := 1, line := "hit".toList,
    context_before := [(1, "hit".toList)], context_after := [],
    matched_text := "hit".toList, column_start := 0, column_end := 3 }

/-- Claim C4 counterexample: a run over the files `foo/baz.txt` and
`foo-bar.txt` (distinct paths, one match each).  Rust's component-wise
`PathBuf` order sorts `foo/baz.txt` before `foo-bar.txt` (`"foo"` is a
proper prefix of `"foo-bar.txt"`), but byte-wise
`"foo-bar.txt" < "foo/baz.txt"` (0x2D < 0x2F), so the adjacent pair of the
aggregated output violates the claim's byte-wise four-component key. -/
theorem aggregated_bytewise_order_counterexample :
    (([("foo/baz.txt".toList, ["hit".toList]),
       ("foo-bar.txt".toList, ["hit".toList])].map Prod.fst).Nodup) ∧
    ¬ (aggregate_matches (literal_find "hit".toList)
        [("foo/baz.txt".toList, ["hit".toList]),
         ("foo-bar.txt".toList, ["hit".toList])]).Chain' key4_le := by
  constructor
  · decide
  · have heval : aggregate_matches (literal_find "hit".toList)
        [("foo/baz.txt".toList, ["hit".toList]),
         ("foo-bar.txt".toList, ["hit".toList])] = [c4_rec_baz, c4_rec_bar] := by
      decide
    rw [heval, List.chain'_pair]
    decide
